import Mathlib

/-!
# Verification of the Netflix movie-library search/aggregation core

A shallow embedding of the query-building, pagination, aggregation and
result-mapping logic of the movie-library service, together with proofs
about its behaviour.

Embedding conventions:
* Redis hash fields are returned to Python as decoded strings
  (`decode_responses=True` in `RedisSearchService._connect`), so raw
  documents are modelled as flat `String × String` field lists.
* Python truthiness on a string is "non-empty"; on an optional number it
  is "present and non-zero".
* Python numeric coercions `int(...)` / `float(...)` are modelled as
  partial parsers into `Int` / `Rat` (`none` models a raised
  `ValueError`); fallible code paths are modelled with `Option`.
* Python `sorted(key=..., reverse=True)` is a stable descending sort and
  is modelled by `List.mergeSort` with the comparison `key b ≤ key a`.
-/

namespace MovieLib

/-- The character `"` (U+0022). -/
def quoteChar : Char := Char.ofNat 34

/-- The character `'` (U+0027). -/
def apostChar : Char := Char.ofNat 39

/-- The character `\` (U+005C). -/
def backslashChar : Char := Char.ofNat 92

/-- Python `dict.get` over a flat field list (our documents never carry
duplicate keys, so first-match lookup agrees with a Python dict). -/
def dictGet (fields : List (String × String)) (k : String) : Option String :=
  (fields.find? (fun p => p.1 == k)).map (fun p => p.2)

/-- Numeric value of a list of decimal digit characters. -/
def digitsVal (cs : List Char) : Nat :=
  cs.foldl (fun n c => 10 * n + (c.toNat - 48)) 0

/-- `cs` is non-empty and consists solely of decimal digits. -/
def allDigits (cs : List Char) : Bool :=
  !cs.isEmpty && cs.all (fun c => c.isDigit)

/-- Strip leading and trailing spaces, as Python `int`/`float` accept
surrounding whitespace. -/
def trimSpaces (cs : List Char) : List Char :=
  ((cs.dropWhile (fun c => c = ' ')).reverse.dropWhile (fun c => c = ' ')).reverse

/-- Python `int(s)` on a string: optional sign followed by decimal digits
(`none` models a raised `ValueError`; exotic forms such as underscores or
non-ASCII digits are outside the data handled here). -/
def pyInt (s : String) : Option Int :=
  match trimSpaces s.toList with
  | '-' :: rest => if allDigits rest then some (-(digitsVal rest : Int)) else none
  | '+' :: rest => if allDigits rest then some (digitsVal rest : Int) else none
  | cs => if allDigits cs then some (digitsVal cs : Int) else none

/-- Core of Python `float(s)`: a plain decimal literal, with an optional
single point; exact rational value. -/
def pyFloatCore (cs : List Char) : Option Rat :=
  match cs.splitOn '.' with
  | [a] => if allDigits a then some (digitsVal a : Rat) else none
  | [a, b] =>
    if (a.all (fun c => c.isDigit)) && (b.all (fun c => c.isDigit))
        && !(a.isEmpty && b.isEmpty) then
      some ((digitsVal a : Rat) + (digitsVal b : Rat) / ((10 : Rat) ^ b.length))
    else none
  | _ => none

/-- Python `float(s)` on a string holding a plain decimal literal
(`none` models a raised `ValueError`). The store's numeric fields hold
such literals. -/
def pyFloat (s : String) : Option Rat :=
  match trimSpaces s.toList with
  | '-' :: rest => (pyFloatCore rest).map (fun r => -r)
  | '+' :: rest => pyFloatCore rest
  | cs => pyFloatCore cs

/-- Python `str` on a float, restricted to floats with integral value
(`str(8.0) = "8.0"`); the query-builder theorems only instantiate such
bounds, where this rendering is exact. -/
def pyFloatStr (q : Rat) : String :=
  if q.den = 1 then toString q.num ++ ".0" else toString q

/-! ## Document-store model

`RedisSearchService` (netflix-movie-library-connector) talks to RediSearch.
A raw document is a flat field map; the `FT.SEARCH` reply is a count
followed by alternating document keys and flat field arrays, which
`RedisSearchService.search` parses back into dictionaries. The query
engine itself is external (spec section 6), so a `StoreState` carries the
document collection together with an opaque query-match function. -/

/-- A stored document: Redis key plus flat field/value pairs (values are
decoded strings). -/
structure StoreDoc where
  key : String
  fields : List (String × String)
deriving DecidableEq

/-- One element of a raw `FT.SEARCH` reply. -/
inductive Reply where
  | count (n : Nat)
  | docId (s : String)
  | flat (l : List String)
deriving DecidableEq

/-- The store: a document collection plus the external engine's
query-match predicate (opaque here, per the spec's collaborator
contract). -/
structure StoreState where
  docs : List StoreDoc
  matchesQ : String → StoreDoc → Bool

/-- The documents of `st` matching query `q`. -/
def ftMatches (st : StoreState) (q : String) : List StoreDoc :=
  st.docs.filter (st.matchesQ q)

/-- Flatten a field map into the alternating key/value array RediSearch
returns. -/
def flattenFields (l : List (String × String)) : List String :=
  l.flatMap (fun p => [p.1, p.2])

/-- Rebuild a field map from an alternating key/value array, as the
parsing loop of `RedisSearchService.search` does. -/
def unflattenFields : List String → List (String × String)
  | k :: v :: rest => (k, v) :: unflattenFields rest
  | _ => []

/-- The raw `FT.SEARCH` reply for the given matches with `LIMIT offset
limit`: total match count, then key/fields pairs for the requested
slice. -/
def ftReply (hits : List StoreDoc) (offset limit : Nat) : List Reply :=
  Reply.count hits.length ::
    ((hits.drop offset).take limit).flatMap
      (fun d => [Reply.docId d.key, Reply.flat (flattenFields d.fields)])

/-- The document-parsing loop of `RedisSearchService.search` (lines
278-294): walk the reply tail two entries at a time, rebuilding each
document. -/
def parseDocs : List Reply → List StoreDoc
  | Reply.docId k :: Reply.flat fl :: rest => ⟨k, unflattenFields fl⟩ :: parseDocs rest
  | _ => []

/-- `RedisSearchService.search` (connector, lines 250-301): run
`FT.SEARCH q LIMIT offset limit`, return `[]` when the reply has fewer
than two entries, else parse the documents. -/
def redisSearchExec (st : StoreState) (q : String) (offset limit : Nat) : List StoreDoc :=
  let result := ftReply (ftMatches st q) offset limit
  if result.length < 2 then [] else parseDocs result.tail

theorem unflatten_flatten (l : List (String × String)) :
    unflattenFields (flattenFields l) = l := by
  induction l with
  | nil => rfl
  | cons p rest ih => simp [flattenFields, unflattenFields] at ih ⊢; exact ih

theorem parseDocs_pairs (l : List StoreDoc) :
    parseDocs (l.flatMap
      (fun d => [Reply.docId d.key, Reply.flat (flattenFields d.fields)])) = l := by
  induction l with
  | nil => rfl
  | cons d rest ih =>
    rw [List.flatMap_cons, List.cons_append, List.singleton_append]
    simp only [parseDocs, unflatten_flatten, ih]

/-- The connector search returns exactly the requested slice of the
matching documents: the reply parse is a faithful round-trip. -/
theorem redisSearchExec_eq (st : StoreState) (q : String) (offset limit : Nat) :
    redisSearchExec st q offset limit = ((ftMatches st q).drop offset).take limit := by
  unfold redisSearchExec ftReply
  rcases h : ((ftMatches st q).drop offset).take limit with _ | ⟨d, rest⟩
  · simp
  · simp only [List.flatMap_cons, List.cons_append, List.singleton_append,
      List.length_cons, List.tail_cons]
    rw [if_neg (by omega)]
    have := parseDocs_pairs (d :: rest)
    rwa [List.flatMap_cons, List.cons_append, List.singleton_append] at this

/-! ## Field access helpers (Python `movie.get(...)`) -/

/-- `movie.get(k)` on a parsed document. -/
def fieldGet (d : StoreDoc) (k : String) : Option String :=
  dictGet d.fields k

/-- `movie.get(k, dflt)` on a parsed document. -/
def fieldGetD (d : StoreDoc) (k dflt : String) : String :=
  (fieldGet d k).getD dflt

/-- Python truthiness of `movie.get(k)`: the field is present and
non-empty. -/
def fieldTruthy (d : StoreDoc) (k : String) : Bool :=
  match fieldGet d k with
  | some s => !(s == "")
  | none => false

/-! ## QueryBuilder: `SearchService.build_search_query`
(netflix-movie-library-service, search_service.py lines 39-150) -/

/-- Python `s.replace(old, new)` for a one-character pattern `old`: every
occurrence of `old` is replaced by `new`. -/
def replaceChar : List Char → Char → List Char → List Char
  | [], _, _ => []
  | c :: rest, old, new => (if c = old then new else [c]) ++ replaceChar rest old new

/-- Line 80: `search_query.replace('"', '\\"').replace("'", "\\'")`. -/
def escapeQuery (s : List Char) : List Char :=
  replaceChar (replaceChar s quoteChar [backslashChar, quoteChar])
    apostChar [backslashChar, apostChar]

/-- Line 85: the free-text prefix-OR clause over content, stars,
director and writer. -/
def textSearchClause (s : List Char) : List Char :=
  "(@content:".toList ++ escapeQuery s ++ "* | @stars:".toList ++ escapeQuery s
    ++ "* | @director:".toList ++ escapeQuery s
    ++ "* | @writer:".toList ++ escapeQuery s ++ "*)".toList

/-- One `if <value>: query_parts.append(f"@field:<value>")` step
(lines 92-111); a `None` or empty optional string is falsy in Python. -/
def optStrClause (pre : String) (v : Option (List Char)) : List (List Char) :=
  match v with
  | some s => if s.isEmpty then [] else [pre.toList ++ s]
  | none => []

/-- `SearchService.build_search_query`: assemble the query parts in
source order and join them with single spaces (line 143). -/
def buildSearchQuery (searchQuery : List Char)
    (genre subgenre language country : Option (List Char))
    (yearFrom yearTo : Option Int) (ratingMin ratingMax : Option Rat)
    (productionHouse director actor : Option (List Char)) : List Char :=
  let queryParts : List (List Char) :=
    if searchQuery.isEmpty then [['*']] else [textSearchClause searchQuery]
  let queryParts := queryParts ++ optStrClause "@genre:" genre
  let queryParts := queryParts ++ optStrClause "@subgenre:" subgenre
  let queryParts := queryParts ++ optStrClause "@language:" language
  let queryParts := queryParts ++ optStrClause "@country:" country
  let queryParts := queryParts ++ optStrClause "@production_house:" productionHouse
  let queryParts := queryParts ++ optStrClause "@director:" director
  let queryParts := queryParts ++ optStrClause "@stars:" actor
  let queryParts := queryParts ++
    (if yearFrom.isSome || yearTo.isSome then
      ["@year:[".toList
        ++ (match yearFrom with
            | some y => (toString y).toList
            | none => ['0'])
        ++ [' ']
        ++ (match yearTo with
            | some y => (toString y).toList
            | none => "+inf".toList)
        ++ [']']]
    else [])
  let queryParts := queryParts ++
    (if ratingMin.isSome || ratingMax.isSome then
      ["@imdb_rating:[".toList
        ++ (match ratingMin with
            | some r => (pyFloatStr r).toList
            | none => ['0'])
        ++ [' ']
        ++ (match ratingMax with
            | some r => (pyFloatStr r).toList
            | none => "10".toList)
        ++ [']']]
    else [])
  List.intercalate [' '] queryParts

/-! ## Advanced-search range filters
(`Query.advanced_search_movies`, resolvers.py lines 186-209; the REST
`search_movies_get` builds the identical clauses) -/

/-- GraphQL `YearRange` input. -/
structure YearRange where
  minYear : Option Int
  maxYear : Option Int

/-- GraphQL `RatingRange` input. -/
structure RatingRange where
  minRating : Option Rat
  maxRating : Option Rat

/-- GraphQL `PopularityRange` input. -/
structure PopularityRange where
  minPopularity : Option Int
  maxPopularity : Option Int

/-- Python truthiness of an `Optional[int]`: present and non-zero. -/
def intOptTruthy : Option Int → Bool
  | some v => !(v == 0)
  | none => false

/-- Python truthiness of an `Optional[float]`: present and non-zero. -/
def ratOptTruthy : Option Rat → Bool
  | some v => !(v == 0)
  | none => false

/-- The three numeric range filters of `advanced_search_movies`
(resolvers.py lines 186-209), in source order. -/
def advRangeFilters (yearRange : Option YearRange) (ratingRange : Option RatingRange)
    (popularityRange : Option PopularityRange) : List (List Char) :=
  (match yearRange with
   | some r =>
     ["@year:[".toList
       ++ (if intOptTruthy r.minYear then (toString (r.minYear.getD 0)).toList
           else "1900".toList)
       ++ [' ']
       ++ (if intOptTruthy r.maxYear then (toString (r.maxYear.getD 0)).toList
           else "2030".toList)
       ++ [']']]
   | none => [])
  ++ (match ratingRange with
      | some r =>
        ["@imdb_rating:[".toList
          ++ (if ratOptTruthy r.minRating then (pyFloatStr (r.minRating.getD 0)).toList
              else "0".toList)
          ++ [' ']
          ++ (if ratOptTruthy r.maxRating then (pyFloatStr (r.maxRating.getD 0)).toList
              else "10".toList)
          ++ [']']]
      | none => [])
  ++ (match popularityRange with
      | some r =>
        ["@popu:[".toList
          ++ (if intOptTruthy r.minPopularity then (toString (r.minPopularity.getD 0)).toList
              else "0".toList)
          ++ [' ']
          ++ (if intOptTruthy r.maxPopularity then (toString (r.maxPopularity.getD 0)).toList
              else "1000000".toList)
          ++ [']']]
      | none => [])

/-! Spec-side range-clause combinators, written from the claim wording:
an inclusive bracketed expression whose absent bounds are filled with a
floor and a ceiling. -/

/-- A range clause emitted only when at least one bound is given
(claim wording for `build_search_query`): `opening` is the `field:[`
prefix of the inclusive bracketed expression. -/
def rangeClauseWith (opening floor ceiling : String)
    (mn mx : Option (List Char)) : List (List Char) :=
  if mn = none ∧ mx = none then []
  else [opening.toList ++ mn.getD floor.toList ++ [' ']
    ++ mx.getD ceiling.toList ++ [']']]

/-- A range clause emitted whenever the range object itself is present
(the advanced-search behaviour). -/
def rangeClauseObj (opening floor ceiling : String)
    (ro : Option (Option (List Char) × Option (List Char))) : List (List Char) :=
  match ro with
  | none => []
  | some (mn, mx) =>
    [opening.toList ++ mn.getD floor.toList ++ [' ']
      ++ mx.getD ceiling.toList ++ [']']]

/-- A bound surviving Python truthiness, already rendered. -/
def truthyIntBound (v : Option Int) : Option (List Char) :=
  if intOptTruthy v then some (toString (v.getD 0)).toList else none

/-- A float bound surviving Python truthiness, already rendered. -/
def truthyRatBound (v : Option Rat) : Option (List Char) :=
  if ratOptTruthy v then some (pyFloatStr (v.getD 0)).toList else none

/-! ## Counting and pagination -/

/-- `RedisSearchService.get_document_count`: the `num_docs` entry of
`FT.INFO`, i.e. the size of the whole collection. -/
def getDocumentCount (st : StoreState) : Nat :=
  st.docs.length

/-- `SearchService._get_total_count` (search_service.py lines 401-411):
`FT.SEARCH <q> LIMIT 0 0` and read the leading count. -/
def svcGetTotalCount (st : StoreState) (q : String) : Nat :=
  match ftReply (ftMatches st q) 0 0 with
  | Reply.count n :: _ => n
  | _ => 0

/-- The dictionary returned by `SearchService.search_movies`. -/
structure SearchPage where
  movies : List StoreDoc
  totalCount : Nat
  page : Nat
  pageSize : Nat

/-- `SearchService.search_movies` (lines 152-203): offset
`(page-1)*page_size`, window of `page_size` hits, plus the match count.
Page and size are `Nat` here; the claims under proof restrict to
`page ≥ 1`, `page_size ≥ 1`, where this agrees with Python's ints. -/
def svcSearchMovies (st : StoreState) (q : String) (page pageSize : Nat) : SearchPage :=
  let offset := (page - 1) * pageSize
  let results := redisSearchExec st q offset pageSize
  { movies := results, totalCount := svcGetTotalCount st q,
    page := page, pageSize := pageSize }

/-- The pagination metadata of a GraphQL `SearchResult`. -/
structure SearchResultMeta where
  totalCount : Nat
  page : Nat
  pageSize : Nat
  totalPages : Nat
  hasNext : Bool
  hasPrevious : Bool

/-- `Query.search_movies` result metadata (resolvers.py lines 125-133):
`total_pages = (total_count + page_size - 1) // page_size`,
`has_next = page < total_pages`, `has_previous = page > 1`. -/
def resolverPageMeta (totalCount page pageSize : Nat) : SearchResultMeta :=
  { totalCount := totalCount, page := page, pageSize := pageSize,
    totalPages := (totalCount + pageSize - 1) / pageSize,
    hasNext := decide (page < (totalCount + pageSize - 1) / pageSize),
    hasPrevious := decide (1 < page) }

/-- The `AdvancedSearchResult` fields relevant here. -/
structure AdvResult where
  movies : List StoreDoc
  totalCount : Nat
  page : Nat
  pageSize : Nat
  totalPages : Nat
  hasNext : Bool
  hasPrevious : Bool

/-- `Query.advanced_search_movies` (resolvers.py lines 239-304): the
hits for the requested window, but `total_count` taken from
`redis_service.get_document_count()` (line 281). The REST
`search_movies_get` (movies.py lines 429-485) computes the same
fields. -/
def advancedSearchMovies (st : StoreState) (q : String) (page pageSize : Nat) : AdvResult :=
  let results := redisSearchExec st q ((page - 1) * pageSize) pageSize
  let totalCount := getDocumentCount st
  let totalPages := (totalCount + pageSize - 1) / pageSize
  { movies := results, totalCount := totalCount, page := page, pageSize := pageSize,
    totalPages := totalPages, hasNext := decide (page < totalPages),
    hasPrevious := decide (1 < page) }

/-! ## Dashboard aggregation: `SearchService.get_dashboard_stats`
(search_service.py lines 447-585) -/

/-- `float(movie.get(k, 0))`: parse the field when present, else the
numeric default 0. -/
def pyFloatField (d : StoreDoc) (k : String) : Option Rat :=
  match fieldGet d k with
  | some s => pyFloat s
  | none => some 0

/-- `int(movie.get(k, 0))`: parse the field when present, else 0. -/
def pyIntField (d : StoreDoc) (k : String) : Option Int :=
  match fieldGet d k with
  | some s => pyInt s
  | none => some 0

/-- Effectful map over `Option`: the first `none` (a raised exception)
aborts the whole traversal, as in a Python list comprehension. -/
def optionTraverse {α β : Type} (f : α → Option β) : List α → Option (List β)
  | [] => some []
  | a :: rest => do
    let b ← f a
    let bs ← optionTraverse f rest
    pure (b :: bs)

/-- Line 470: ratings of all records whose `imdb_rating` field is truthy
(`none` models a `ValueError` escaping the comprehension). -/
def svcDashRatings (docs : List StoreDoc) : Option (List Rat) :=
  optionTraverse (fun d => pyFloatField d "imdb_rating")
    (docs.filter (fun d => fieldTruthy d "imdb_rating"))

/-- Line 471: `sum(ratings) / len(ratings) if ratings else 0.0`
(the returned dict later rounds to one decimal; this is the computed
mean). -/
def svcAverageRating (docs : List StoreDoc) : Option Rat :=
  (svcDashRatings docs).map (fun rs => if rs.isEmpty then 0 else rs.sum / (rs.length : Rat))

/-- An entry of the dashboard's top-rated-movies list. -/
structure TopRec where
  title : String
  year : Int
  genre : String
  rating : Rat
  director : String
deriving DecidableEq

/-- The comparison performed by
`sorted(..., key=lambda x: x['rating'], reverse=True)`: a stable
descending sort keeps `a` before `b` exactly when `b.rating ≤ a.rating`. -/
def ratingDescLe (a b : TopRec) : Bool :=
  decide (b.rating ≤ a.rating)

/-- Lines 550-560: the dict built for one qualifying record. -/
def svcTopRecOf (d : StoreDoc) : Option TopRec := do
  let r ← pyFloatField d "imdb_rating"
  let y ← pyIntField d "year"
  pure { title := fieldGetD d "title" "Unknown", year := y,
         genre := fieldGetD d "genre" "Unknown", rating := r,
         director := fieldGetD d "director" "Unknown" }

/-- Lines 550-560: records with truthy `imdb_rating` and truthy `title`,
mapped to top-rated entries in input order. -/
def svcDashBase (docs : List StoreDoc) : Option (List TopRec) :=
  optionTraverse svcTopRecOf
    (docs.filter (fun d => fieldTruthy d "imdb_rating" && fieldTruthy d "title"))

/-- Line 563: the full list sorted by rating, descending and stable —
the service never truncates it. -/
def svcTopRatedMovies (docs : List StoreDoc) : Option (List TopRec) :=
  (svcDashBase docs).map (fun base => base.mergeSort ratingDescLe)

/-! ## Dashboard aggregation: `Query.get_dashboard_stats`
(resolvers.py lines 451-556) -/

/-- `get_rating_value` (lines 518-522): parse failures and absent fields
collapse to 0.0. -/
def resolverRatingValue (d : StoreDoc) : Rat :=
  match fieldGet d "imdb_rating" with
  | some s => (pyFloat s).getD 0
  | none => 0

/-- Lines 526-528: `int(movie.get('year', 0)) if movie.get('year') else
0`, with parse failures collapsing to 0. -/
def resolverYearValue (d : StoreDoc) : Int :=
  match fieldGet d "year" with
  | some s => if s == "" then 0 else (pyInt s).getD 0
  | none => 0

/-- Stable descending comparison on raw documents by parsed rating. -/
def resolverDocLe (a b : StoreDoc) : Bool :=
  decide (resolverRatingValue b ≤ resolverRatingValue a)

/-- Lines 516-536: all documents (no rating or title filter) sorted by
rating descending, first five, mapped to `TopRatedMovie` values. -/
def resolverTopRated (docs : List StoreDoc) : List TopRec :=
  ((docs.mergeSort resolverDocLe).take 5).map
    (fun d => { title := fieldGetD d "title" "", year := resolverYearValue d,
                genre := fieldGetD d "genre" "", rating := resolverRatingValue d,
                director := fieldGetD d "director" "" })

/-- Lines 488-495: the rating appended for one document — present, parseable
and strictly positive — otherwise nothing. -/
def resolverRatingOf (d : StoreDoc) : Option Rat :=
  match fieldGet d "imdb_rating" with
  | some s =>
    if s == "" then none
    else
      match pyFloat s with
      | some r => if 0 < r then some r else none
      | none => none
  | none => none

/-- The resolver's `ratings` list, in document order. -/
def resolverRatings (docs : List StoreDoc) : List Rat :=
  docs.filterMap resolverRatingOf

/-- Line 546: `sum(ratings) / len(ratings) if ratings else 0.0`. -/
def resolverAverageRating (docs : List StoreDoc) : Rat :=
  let rs := resolverRatings docs
  if rs.isEmpty then 0 else rs.sum / (rs.length : Rat)

/-! ## Genre validity filter: `SearchService._is_valid_genre`
(search_service.py lines 413-445) -/

/-- Lines 427-432: `int(genre)` parses and lies in `[1900, 2030]`. -/
def yearLikeGenre (genre : String) : Bool :=
  match pyInt genre with
  | some y => decide (1900 ≤ y) && decide (y ≤ 2030)
  | none => false

/-- The number of alphanumeric characters of the string (the store's
genre values are ASCII, where `Char.isAlphanum` matches Python
`str.isalnum`). -/
def alnumCount (genre : String) : Nat :=
  (genre.toList.filter Char.isAlphanum).length

/-- Lines 434-439: longer than 15 characters and more than 80%
alphanumeric. `alnum/total > 0.8` in float arithmetic coincides with the
exact comparison `5*alnum > 4*total`: the two sides are equal doubles
exactly when the ratio is exactly 4/5, and otherwise differ by far more
than double rounding error at these magnitudes. -/
def folderLikeGenre (genre : String) : Bool :=
  decide (15 < genre.length) && decide (4 * genre.length < 5 * alnumCount genre)

/-- Line 442: `genre.startswith('1')`. -/
def startsWithOne (genre : String) : Bool :=
  match genre.toList with
  | c :: _ => c == '1'
  | [] => false

/-- `SearchService._is_valid_genre`, with its four exclusion rules in
source order. -/
def isValidGenre (genre : String) : Bool :=
  if genre == "" || genre == "Unknown" then false
  else if yearLikeGenre genre then false
  else if folderLikeGenre genre then false
  else if startsWithOne genre && decide (15 < genre.length) then false
  else true

/-- The exclusion rule exactly as the claim words it: empty or
"Unknown", a year in [1900, 2030], or >15 characters and >80%
alphanumeric. -/
def claimExcludesGenre (genre : String) : Bool :=
  (genre == "" || genre == "Unknown") || yearLikeGenre genre || folderLikeGenre genre

/-! ## Dashboard genre/top statistics and the store-failure path -/

/-- Insert-or-increment on an insertion-ordered count list — the model
of a Python dict used as a counter. -/
def bumpKey : List (String × Nat) → String → List (String × Nat)
  | [], k => [(k, 1)]
  | (a, n) :: rest, k =>
    if a == k then (a, n + 1) :: rest else (a, n) :: bumpKey rest k

/-- Lines 478-482: count the valid genre values of all records. -/
def dashGenreCounts (docs : List StoreDoc) : List (String × Nat) :=
  docs.foldl (fun acc d =>
    let g := fieldGetD d "genre" "Unknown"
    if isValidGenre g then bumpKey acc g else acc) []

/-- Python `max(items, key=lambda x: x[1])[0]`: the first entry with the
maximal count. -/
def pyMaxBySnd : List (String × Nat) → String
  | [] => "Unknown"
  | p :: rest => (rest.foldl (fun best q => if best.2 < q.2 then q else best) p).1

/-- Python `max` over a year list, with 0 for the guarded empty case. -/
def pyMaxInt : List Int → Int
  | [] => 0
  | c :: rest => rest.foldl max c

/-- `sorted(counts.items(), key=lambda x: x[1], reverse=True)`. -/
def sortByCountDesc (l : List (String × Nat)) : List (String × Nat) :=
  l.mergeSort (fun a b => decide (b.2 ≤ a.2))

/-- The dashboard statistics modelled here (the per-year rollup list of
the returned dict is not referenced by any claim and is omitted). -/
structure DashStats where
  totalMovies : Nat
  averageRating : Rat
  topGenre : String
  latestYear : Int
  top5Genres : List (String × Nat)
  topRatedMovies : List TopRec
deriving DecidableEq

/-- The zero statistics returned both on an empty collection (lines
458-466) and from the exception handler (lines 575-585). -/
def emptyDashStats : DashStats :=
  { totalMovies := 0, averageRating := 0, topGenre := "Unknown",
    latestYear := 0, top5Genres := [], topRatedMovies := [] }

/-- The body of `get_dashboard_stats` on a non-empty collection; `none`
models an exception reaching the handler (a numeric field that fails to
parse — including line 496's unguarded `int(movie.get('year', 0))` over
every record). -/
def svcDashboardCore (docs : List StoreDoc) : Option DashStats := do
  let avg ← svcAverageRating docs
  let years ← optionTraverse (fun d => pyIntField d "year")
    (docs.filter (fun d => fieldTruthy d "year"))
  let _ ← optionTraverse (fun d => pyIntField d "year") docs
  let top ← svcTopRatedMovies docs
  let counts := dashGenreCounts docs
  pure { totalMovies := docs.length,
         averageRating := avg,
         topGenre := if counts.isEmpty then "Unknown" else pyMaxBySnd counts,
         latestYear := pyMaxInt years,
         top5Genres := (sortByCountDesc counts).take 5,
         topRatedMovies := top }

/-- `RedisSearchService.search` at the store boundary: the store's
response stream is indexed by call number; the code issues call 0 and
catches any failure, returning `[]` (connector lines 299-301). -/
def redisSearchCatch (store : Nat → Except String (List StoreDoc)) : List StoreDoc :=
  match store 0 with
  | Except.ok docs => docs
  | Except.error _ => []

/-- `SearchService.get_dashboard_stats` end to end: fetch everything
through the catching search, return the zero statistics on an empty
fetch or on an exception. -/
def svcGetDashboardStats (store : Nat → Except String (List StoreDoc)) : DashStats :=
  let allMovies := redisSearchCatch store
  if allMovies.isEmpty then emptyDashStats
  else (svcDashboardCore allMovies).getD emptyDashStats

/-! ## Facets: `_get_facet_data` (resolvers.py lines 737-786) -/

/-- The per-field counting loop: skip falsy values, count the rest. -/
def countField (docs : List StoreDoc) (field : String) : List (String × Nat) :=
  docs.foldl (fun acc d =>
    let v := fieldGetD d field ""
    if v == "" then acc else bumpKey acc v) []

/-- `_get_facet_data`: fetch the sample with `search("*", limit=0)`
(line 743) and build the genre, language and production-house tables,
appending each only when non-empty. -/
def getFacetData (st : StoreState) : List (String × List (String × Nat)) :=
  let sample := redisSearchExec st "*" 0 0
  let genreCounts := countField sample "genre"
  let languageCounts := countField sample "language"
  let prodCounts := countField sample "production_house"
  (if genreCounts.isEmpty then [] else [("genre", sortByCountDesc genreCounts)])
    ++ (if languageCounts.isEmpty then []
        else [("language", sortByCountDesc languageCounts)])
    ++ (if prodCounts.isEmpty then []
        else [("production_house", sortByCountDesc prodCounts)])

/-! ## Delimiter split/join for multi-value fields
(`Query.search_movies` resolvers.py line 102 splits on `", "`) -/

/-- Python `s.split(", ")`, specialised to the two-character delimiter:
scan left to right, breaking at each non-overlapping occurrence;
`"".split(", ") = [""]`. -/
def splitCS : List Char → List (List Char)
  | [] => [[]]
  | [c] => [[c]]
  | c1 :: c2 :: rest =>
    if c1 = ',' ∧ c2 = ' ' then [] :: splitCS rest
    else
      match splitCS (c2 :: rest) with
      | [] => [[c1]]
      | t :: ts => (c1 :: t) :: ts

/-- Python `", ".join(l)`. -/
def joinCS : List (List Char) → List Char
  | [] => []
  | [x] => x
  | x :: xs => x ++ ',' :: ' ' :: joinCS xs

/-- The entry contains the delimiter substring `", "`. -/
def hasDelimCS : List Char → Bool
  | [] => false
  | [_] => false
  | c1 :: c2 :: rest => (c1 = ',' && c2 = ' ') || hasDelimCS (c2 :: rest)

/-! ## Claim-side escaping checker (spec section 8): every `"` or `'`
in the clause must be preceded by the escape character `\`. -/

/-- The character is one of the two that must be escaped. -/
def isQuoteChar (c : Char) : Bool :=
  c == quoteChar || c == apostChar

/-- Scan a list knowing the character `prev` standing immediately before
it: every quote encountered must be preceded by a backslash. -/
def quotesEscapedFrom (prev : Char) : List Char → Bool
  | [] => true
  | c :: rest =>
    (if isQuoteChar c then prev == backslashChar else true) && quotesEscapedFrom c rest

/-- No unescaped `"` or `'` anywhere in the list (a quote in first
position counts as unescaped: the sentinel predecessor is a space). -/
def quotesEscaped (l : List Char) : Bool :=
  quotesEscapedFrom ' ' l

/-- The character standing last in `prev :: l`. -/
def lastD (prev : Char) : List Char → Char
  | [] => prev
  | c :: rest => lastD c rest

/-- What one input character becomes after both replace passes of
`escapeQuery`. -/
def escBlock (c : Char) : List Char :=
  if c = quoteChar then [backslashChar, quoteChar]
  else if c = apostChar then [backslashChar, apostChar]
  else [c]

/-! ## Concrete fixtures for counterexamples and witnesses -/

/-- A store document whose genre is Action. -/
def cexDocAction : StoreDoc :=
  ⟨"movie:a", [("genre", "Action"), ("title", "A")]⟩

/-- A store document whose genre is Drama. -/
def cexDocDrama : StoreDoc :=
  ⟨"movie:b", [("genre", "Drama"), ("title", "B")]⟩

/-- A two-document store whose query engine matches only Action
records (the engine is opaque; any fixed behaviour is admissible). -/
def cexStore : StoreState :=
  ⟨[cexDocAction, cexDocDrama], fun _ d => fieldGetD d "genre" "" == "Action"⟩

/-- A record carrying the unrated sentinel `0.0` as stored by
`index_document` (`hset` renders the Python float `0.0` as the string
`"0.0"`). -/
def ratedZeroDoc : StoreDoc :=
  ⟨"movie:r0", [("imdb_rating", "0.0"), ("title", "Zero")]⟩

/-- A record rated 8.0. -/
def ratedEightDoc : StoreDoc :=
  ⟨"movie:r8", [("imdb_rating", "8.0"), ("title", "Eight")]⟩

/-- A record rated 6.0. -/
def ratedSixDoc : StoreDoc :=
  ⟨"movie:r6", [("imdb_rating", "6.0"), ("title", "Six")]⟩

/-- The spec's average-rating example: ratings 0, 8.0, 6.0. -/
def c3Docs : List StoreDoc :=
  [ratedZeroDoc, ratedEightDoc, ratedSixDoc]

/-- Six records, all with positive ratings and non-empty titles. -/
def sixDocs : List StoreDoc :=
  [⟨"movie:1", [("imdb_rating", "9"), ("title", "T1")]⟩,
   ⟨"movie:2", [("imdb_rating", "8"), ("title", "T2")]⟩,
   ⟨"movie:3", [("imdb_rating", "7"), ("title", "T3")]⟩,
   ⟨"movie:4", [("imdb_rating", "6"), ("title", "T4")]⟩,
   ⟨"movie:5", [("imdb_rating", "5"), ("title", "T5")]⟩,
   ⟨"movie:6", [("imdb_rating", "4"), ("title", "T6")]⟩]

/-- The mapped base list for `sixDocs`, in input order. -/
def sixBase : List TopRec :=
  [⟨"T1", 0, "Unknown", 9, "Unknown"⟩,
   ⟨"T2", 0, "Unknown", 8, "Unknown"⟩,
   ⟨"T3", 0, "Unknown", 7, "Unknown"⟩,
   ⟨"T4", 0, "Unknown", 6, "Unknown"⟩,
   ⟨"T5", 0, "Unknown", 5, "Unknown"⟩,
   ⟨"T6", 0, "Unknown", 4, "Unknown"⟩]

/-- A store whose first response is a connection failure. -/
def failingStore : Nat → Except String (List StoreDoc) :=
  fun _ => Except.error "connection refused"

/-- A healthy store over an empty collection. -/
def emptyOkStore : Nat → Except String (List StoreDoc) :=
  fun _ => Except.ok []

/-- A free-text input containing a double quote. -/
def quotedInput : List Char :=
  [Char.ofNat 97, quoteChar, Char.ofNat 98]

/-- A two-entry star list without the delimiter in any entry. -/
def starsPairInput : List (List Char) :=
  ["Tom Hanks".toList, "Meg Ryan".toList]

/-! ## Shared helper lemmas -/

theorem splitCS_no_delim : ∀ (s : List Char), hasDelimCS s = false → splitCS s = [s]
  | [], _ => rfl
  | [_], _ => rfl
  | c1 :: c2 :: rest, h => by
    have hd : ¬(c1 = ',' ∧ c2 = ' ') := by
      intro hc
      simp [hasDelimCS, hc.1, hc.2] at h
    have ht : hasDelimCS (c2 :: rest) = false := by
      simp only [hasDelimCS, Bool.or_eq_false_iff] at h
      exact h.2
    rw [splitCS, if_neg hd, splitCS_no_delim (c2 :: rest) ht]

theorem splitCS_append_delim :
    ∀ (x t : List Char), hasDelimCS x = false →
      splitCS (x ++ ',' :: ' ' :: t) = x :: splitCS t
  | [], t, _ => by
    rw [List.nil_append, splitCS, if_pos ⟨rfl, rfl⟩]
  | [c], t, _ => by
    have hd : ¬(c = ',' ∧ ',' = ' ') := by
      rintro ⟨-, hc⟩
      exact absurd hc (by decide)
    rw [List.singleton_append, splitCS, if_neg hd, splitCS, if_pos ⟨rfl, rfl⟩]
  | c1 :: c2 :: x', t, h => by
    have hd : ¬(c1 = ',' ∧ c2 = ' ') := by
      intro hc
      simp [hasDelimCS, hc.1, hc.2] at h
    have ht : hasDelimCS (c2 :: x') = false := by
      simp only [hasDelimCS, Bool.or_eq_false_iff] at h
      exact h.2
    have hrec := splitCS_append_delim (c2 :: x') t ht
    rw [List.cons_append] at hrec ⊢
    rw [List.cons_append, splitCS, if_neg hd, hrec]

theorem replaceChar_append (a b : List Char) (old : Char) (new : List Char) :
    replaceChar (a ++ b) old new = replaceChar a old new ++ replaceChar b old new := by
  induction a with
  | nil => rfl
  | cons c rest ih => simp [replaceChar, ih]

theorem escapeQuery_cons (c : Char) (s : List Char) :
    escapeQuery (c :: s) = escBlock c ++ escapeQuery s := by
  unfold escapeQuery escBlock
  show replaceChar ((if c = quoteChar then [backslashChar, quoteChar] else [c])
      ++ replaceChar s quoteChar [backslashChar, quoteChar]) apostChar
      [backslashChar, apostChar] = _
  rw [replaceChar_append]
  by_cases h1 : c = quoteChar
  · subst h1
    rw [if_pos rfl, if_pos rfl]
    simp [replaceChar, show ¬(backslashChar = apostChar) from by decide,
      show ¬(quoteChar = apostChar) from by decide]
  · rw [if_neg h1, if_neg h1]
    by_cases h2 : c = apostChar
    · subst h2
      simp [replaceChar]
    · simp [replaceChar, h2]

theorem quotesEscapedFrom_append (a b : List Char) :
    ∀ prev, quotesEscapedFrom prev (a ++ b)
      = (quotesEscapedFrom prev a && quotesEscapedFrom (lastD prev a) b) := by
  induction a with
  | nil => intro prev; simp [quotesEscapedFrom, lastD]
  | cons c rest ih =>
    intro prev
    simp only [List.cons_append, quotesEscapedFrom, lastD, List.append_eq, ih c,
      Bool.and_assoc]

theorem quotesEscapedFrom_noQuote (l : List Char)
    (h : l.all (fun c => !isQuoteChar c) = true) :
    ∀ prev, quotesEscapedFrom prev l = true := by
  induction l with
  | nil => intro prev; rfl
  | cons c rest ih =>
    intro prev
    simp only [List.all_cons, Bool.and_eq_true, Bool.not_eq_eq_eq_not, Bool.not_true] at h
    simp [quotesEscapedFrom, h.1, ih h.2 c]

theorem quotesEscapedFrom_escape (s : List Char) :
    ∀ prev, quotesEscapedFrom prev (escapeQuery s) = true := by
  induction s with
  | nil => intro prev; rfl
  | cons c rest ih =>
    intro prev
    rw [escapeQuery_cons, quotesEscapedFrom_append, Bool.and_eq_true]
    refine ⟨?_, ih _⟩
    unfold escBlock
    by_cases h1 : c = quoteChar
    · rw [if_pos h1]
      simp only [quotesEscapedFrom]
      rw [if_neg (by decide), if_pos (by decide)]
      decide
    · rw [if_neg h1]
      by_cases h2 : c = apostChar
      · rw [if_pos h2]
        simp only [quotesEscapedFrom]
        rw [if_neg (by decide), if_pos (by decide)]
        decide
      · rw [if_neg h2]
        simp only [quotesEscapedFrom]
        rw [if_neg (by simp [isQuoteChar, h1, h2])]
        rfl

theorem optionTraverse_length {α β : Type} (f : α → Option β) :
    ∀ (l : List α) (r : List β), optionTraverse f l = some r → r.length = l.length := by
  intro l
  induction l with
  | nil =>
    intro r h
    simp only [optionTraverse, Option.some.injEq] at h
    subst h
    rfl
  | cons a rest ih =>
    intro r h
    cases hfa : f a with
    | none => simp [optionTraverse, hfa] at h
    | some b =>
      cases hml : optionTraverse f rest with
      | none => simp [optionTraverse, hfa, hml] at h
      | some bs =>
        simp only [optionTraverse, hfa, hml, Option.bind_eq_bind, Option.bind_some,
          Option.some_bind, pure, Option.some.injEq] at h
        subst h
        simp [ih bs hml]

theorem mergeSort_filter_key {α : Type} (key : α → Rat) (l : List α) (r : Rat) :
    (l.mergeSort (fun a b => decide (key b ≤ key a))).filter (fun a => key a == r)
      = l.filter (fun a => key a == r) := by
  have trans : ∀ a b c : α, decide (key b ≤ key a) = true →
      decide (key c ≤ key b) = true → decide (key c ≤ key a) = true := by
    intro a b c hab hbc
    simp only [decide_eq_true_eq] at hab hbc ⊢
    exact le_trans hbc hab
  have total : ∀ a b : α, (decide (key b ≤ key a) || decide (key a ≤ key b)) = true := by
    intro a b
    simp only [Bool.or_eq_true, decide_eq_true_eq]
    exact le_total (key b) (key a)
  have hpair : (l.filter (fun a => key a == r)).Pairwise
      (fun a b => decide (key b ≤ key a) = true) := by
    induction l with
    | nil => simp
    | cons x rest ih =>
      rw [List.filter_cons]
      by_cases hx : (key x == r) = true
      · rw [if_pos hx]
        refine List.Pairwise.cons ?_ ih
        intro b hb
        have hbr : (key b == r) = true := (List.mem_filter.mp hb).2
        simp only [beq_iff_eq] at hx hbr
        simp [hx, hbr]
      · rw [if_neg hx]
        exact ih
  have hsub : List.Sublist (l.filter (fun a => key a == r))
      (l.mergeSort (fun a b => decide (key b ≤ key a))) :=
    List.sublist_mergeSort trans total hpair (List.filter_sublist l)
  have hsub2 : List.Sublist (l.filter (fun a => key a == r))
      ((l.mergeSort (fun a b => decide (key b ≤ key a))).filter (fun a => key a == r)) := by
    have h2 := hsub.filter (fun a => key a == r)
    rwa [List.filter_filter, List.filter_congr (fun a _ => Bool.and_self (key a == r))] at h2
  have hlen : ((l.mergeSort (fun a b => decide (key b ≤ key a))).filter
      (fun a => key a == r)).length = (l.filter (fun a => key a == r)).length :=
    ((List.mergeSort_perm l _).filter _).length_eq
  exact (hsub2.eq_of_length hlen.symm).symm

theorem truthyIntBound_getD (v : Option Int) (dflt : List Char) :
    (truthyIntBound v).getD dflt
      = if intOptTruthy v then (toString (v.getD 0)).toList else dflt := by
  unfold truthyIntBound
  cases h : intOptTruthy v <;> simp [h]

theorem truthyRatBound_getD (v : Option Rat) (dflt : List Char) :
    (truthyRatBound v).getD dflt
      = if ratOptTruthy v then (pyFloatStr (v.getD 0)).toList else dflt := by
  unfold truthyRatBound
  cases h : ratOptTruthy v <;> simp [h]

theorem ratingDescLe_trans : ∀ a b c : TopRec,
    ratingDescLe a b → ratingDescLe b c → ratingDescLe a c := by
  intro a b c hab hbc
  unfold ratingDescLe at hab hbc ⊢
  simp only [decide_eq_true_eq] at hab hbc ⊢
  exact le_trans hbc hab

theorem ratingDescLe_total : ∀ a b : TopRec, ratingDescLe a b || ratingDescLe b a := by
  intro a b
  unfold ratingDescLe
  simp only [Bool.or_eq_true, decide_eq_true_eq]
  exact le_total b.rating a.rating

theorem resolverDocLe_trans : ∀ a b c : StoreDoc,
    resolverDocLe a b → resolverDocLe b c → resolverDocLe a c := by
  intro a b c hab hbc
  unfold resolverDocLe at hab hbc ⊢
  simp only [decide_eq_true_eq] at hab hbc ⊢
  exact le_trans hbc hab

theorem resolverDocLe_total : ∀ a b : StoreDoc, resolverDocLe a b || resolverDocLe b a := by
  intro a b
  unfold resolverDocLe
  simp only [Bool.or_eq_true, decide_eq_true_eq]
  exact le_total _ _

/-! ## Claim theorems -/

/-- Claim C10: whenever advanced search is asked for facets, the facet
helper fetches its sample with `limit=0`, so the count maps are built
over zero documents and the facet list is always empty — for every store
state (the store returns at most `limit` hits per search by the reply
model). -/
theorem facet_data_always_empty (st : StoreState) : getFacetData st = [] := by
  have h : redisSearchExec st "*" 0 0 = [] := by
    rw [redisSearchExec_eq]
    simp
  simp [getFacetData, h, countField]

/-- Claim C1, counterexample: on a two-document store where the query
matches exactly one document, `advanced_search_movies` reports
`total_count = 2` — the size of the whole collection — while the number
of matches is 1. -/
theorem advanced_total_count_cex :
    (advancedSearchMovies cexStore "@genre:Action" 1 20).totalCount = 2 ∧
    (ftMatches cexStore "@genre:Action").length = 1 ∧ (2 : Nat) ≠ 1 := by
  refine ⟨rfl, by decide, by decide⟩

/-- Claim C1, amended: `SearchService.search_movies` reports the number
of documents matching the executed query (via `FT.SEARCH ... LIMIT 0 0`),
but `advanced_search_movies` and the REST `search_movies_get` report the
size of the whole collection (`get_document_count`), regardless of the
query. -/
theorem total_count_semantics (st : StoreState) (q : String) (page pageSize : Nat) :
    (svcSearchMovies st q page pageSize).totalCount = (ftMatches st q).length ∧
    (advancedSearchMovies st q page pageSize).totalCount = st.docs.length :=
  ⟨rfl, rfl⟩

/-- Claim C3: on stored ratings `"0.0"`, `"8.0"`, `"6.0"` the service
dashboard averages over the zero-rated record as well — the truthiness
guard `if movie.get('imdb_rating')` does not exclude the string `"0.0"`
— yielding 14/3 (≈ 4.67) instead of the specified 7.0; the GraphQL
resolver, which checks `rating_float > 0`, yields the specified 7.0. -/
theorem svc_average_includes_zero_rated :
    svcAverageRating c3Docs = some (14 / 3 : Rat) ∧
    resolverAverageRating c3Docs = 7 ∧ (14 / 3 : Rat) ≠ 7 := by
  have key : svcDashRatings c3Docs
      = some [((0 : Nat) : Rat) + ((0 : Nat) : Rat) / 10 ^ 1,
              ((8 : Nat) : Rat) + ((0 : Nat) : Rat) / 10 ^ 1,
              ((6 : Nat) : Rat) + ((0 : Nat) : Rat) / 10 ^ 1] := rfl
  refine ⟨?_, ?_, by norm_num⟩
  · unfold svcAverageRating
    rw [key]
    simp only [Option.map_some', List.isEmpty_cons, Option.some.injEq]
    norm_num
  · have r0 : resolverRatingOf ratedZeroDoc = none := by
      have h : resolverRatingOf ratedZeroDoc
          = if (0 : Rat) < ((0 : Nat) : Rat) + ((0 : Nat) : Rat) / 10 ^ 1
            then some (((0 : Nat) : Rat) + ((0 : Nat) : Rat) / 10 ^ 1) else none := rfl
      rw [h, if_neg (by norm_num)]
    have r8 : resolverRatingOf ratedEightDoc
        = some (((8 : Nat) : Rat) + ((0 : Nat) : Rat) / 10 ^ 1) := by
      have h : resolverRatingOf ratedEightDoc
          = if (0 : Rat) < ((8 : Nat) : Rat) + ((0 : Nat) : Rat) / 10 ^ 1
            then some (((8 : Nat) : Rat) + ((0 : Nat) : Rat) / 10 ^ 1) else none := rfl
      rw [h, if_pos (by norm_num)]
    have r6 : resolverRatingOf ratedSixDoc
        = some (((6 : Nat) : Rat) + ((0 : Nat) : Rat) / 10 ^ 1) := by
      have h : resolverRatingOf ratedSixDoc
          = if (0 : Rat) < ((6 : Nat) : Rat) + ((0 : Nat) : Rat) / 10 ^ 1
            then some (((6 : Nat) : Rat) + ((0 : Nat) : Rat) / 10 ^ 1) else none := rfl
      rw [h, if_pos (by norm_num)]
    have hr : resolverRatings c3Docs
        = [((8 : Nat) : Rat) + ((0 : Nat) : Rat) / 10 ^ 1,
           ((6 : Nat) : Rat) + ((0 : Nat) : Rat) / 10 ^ 1] := by
      simp [resolverRatings, c3Docs, List.filterMap_cons, r0, r8, r6]
    unfold resolverAverageRating
    rw [hr]
    simp only [List.isEmpty_cons, Bool.false_eq_true, if_false]
    norm_num

/-- Claim C5, counterexample: when the document-store call fails, the
connector search swallows the exception and returns `[]`, and the
dashboard returns the zero statistics — indistinguishable from a healthy
empty store, not a typed error. -/
theorem store_failure_silent_empty_cex :
    svcGetDashboardStats failingStore = svcGetDashboardStats emptyOkStore ∧
    redisSearchCatch failingStore = [] ∧
    svcGetDashboardStats failingStore = emptyDashStats :=
  ⟨rfl, rfl, rfl⟩

/-- Claim C5, amended: when the store call fails, the connector returns
an empty list and the dashboard returns the zero statistics (the failure
is silently converted into an empty result, not surfaced as a typed
error); the core issues a single call and never retries — its result
depends only on the store's first response. -/
theorem store_failure_behavior (store g : Nat → Except String (List StoreDoc))
    (e : String) (h : store 0 = Except.error e) (hg : g 0 = store 0) :
    redisSearchCatch store = [] ∧
    svcGetDashboardStats store = emptyDashStats ∧
    redisSearchCatch g = redisSearchCatch store := by
  have hc : redisSearchCatch store = [] := by
    simp [redisSearchCatch, h]
  refine ⟨hc, ?_, ?_⟩
  · simp [svcGetDashboardStats, hc]
  · simp [redisSearchCatch, hg]

/-- Witness for `store_failure_behavior` at the failing store. -/
theorem store_failure_behavior_witness :
    failingStore 0 = Except.error "connection refused" ∧
    failingStore 0 = failingStore 0 ∧
    (redisSearchCatch failingStore = [] ∧
     svcGetDashboardStats failingStore = emptyDashStats ∧
     redisSearchCatch failingStore = redisSearchCatch failingStore) :=
  ⟨rfl, rfl, store_failure_behavior failingStore failingStore "connection refused" rfl rfl⟩

/-- Claim C9, counterexample: the split/join round-trip fails on the
empty list — `", ".join([]) = ""` and `"".split(", ") = [""]`, so
`split(join([])) = [""] ≠ []`. -/
theorem split_join_nil_cex :
    splitCS (joinCS ([] : List (List Char))) = [[]] ∧
    ([[]] : List (List Char)) ≠ [] :=
  ⟨rfl, by decide⟩

/-- Claim C9, amended: for every non-empty list of entries none of which
contains the delimiter substring `", "`, splitting the `", "`-joined
string on `", "` (as the result mapper does) yields the list back. -/
theorem split_join_roundtrip :
    ∀ (L : List (List Char)), L ≠ [] → (∀ e ∈ L, hasDelimCS e = false) →
      splitCS (joinCS L) = L
  | [], h, _ => absurd rfl h
  | [x], _, hd => by
    rw [joinCS, splitCS_no_delim x (hd x (by simp))]
  | x :: y :: ys, _, hd => by
    have hx : hasDelimCS x = false := hd x (by simp)
    have hrest : splitCS (joinCS (y :: ys)) = y :: ys :=
      split_join_roundtrip (y :: ys) (fun h => List.noConfusion h)
        (fun e he => hd e (List.mem_cons_of_mem x he))
    rw [joinCS, splitCS_append_delim x _ hx, hrest]
    exact fun h => List.noConfusion h

/-- Witness for `split_join_roundtrip` on a concrete two-entry star
list. -/
theorem split_join_roundtrip_witness :
    starsPairInput ≠ [] ∧ (∀ e ∈ starsPairInput, hasDelimCS e = false) ∧
    splitCS (joinCS starsPairInput) = starsPairInput :=
  ⟨by decide, by decide,
    split_join_roundtrip starsPairInput (by decide) (by decide)⟩

/-- Claim C2: for page >= 1, pageSize >= 1 and any totalCount, the search
pagination uses offset (page-1)*pageSize, total_pages is the ceiling of
totalCount/pageSize (characterised by totalCount <= pageSize*totalPages <
totalCount + pageSize, and 0 when totalCount = 0), has_next holds exactly
when page < total_pages, and has_previous exactly when page > 1. -/
theorem pagination_meta_correct (st : StoreState) (q : String)
    (totalCount page pageSize : Nat) (_hpage : 1 ≤ page) (hsize : 1 ≤ pageSize) :
    (svcSearchMovies st q page pageSize).movies
        = ((ftMatches st q).drop ((page - 1) * pageSize)).take pageSize ∧
    totalCount ≤ pageSize * (resolverPageMeta totalCount page pageSize).totalPages ∧
    pageSize * (resolverPageMeta totalCount page pageSize).totalPages
        < totalCount + pageSize ∧
    (totalCount = 0 → (resolverPageMeta totalCount page pageSize).totalPages = 0) ∧
    ((resolverPageMeta totalCount page pageSize).hasNext = true ↔
      page < (resolverPageMeta totalCount page pageSize).totalPages) ∧
    ((resolverPageMeta totalCount page pageSize).hasPrevious = true ↔ 1 < page) := by
  have hA : totalCount ≤ pageSize * ((totalCount + pageSize - 1) / pageSize) ∧
      pageSize * ((totalCount + pageSize - 1) / pageSize) < totalCount + pageSize := by
    have h1 := Nat.div_add_mod (totalCount + pageSize - 1) pageSize
    have h2 : (totalCount + pageSize - 1) % pageSize < pageSize :=
      Nat.mod_lt _ (by omega)
    generalize hM : pageSize * ((totalCount + pageSize - 1) / pageSize) = M at h1 ⊢
    generalize hR : (totalCount + pageSize - 1) % pageSize = R at h1 h2
    omega
  refine ⟨redisSearchExec_eq st q _ _, hA.1, hA.2, ?_, ?_, ?_⟩
  · intro h
    subst h
    show (0 + pageSize - 1) / pageSize = 0
    exact Nat.div_eq_of_lt (by omega)
  · simp [resolverPageMeta]
  · simp [resolverPageMeta]

/-- Witness for `pagination_meta_correct` at the spec's own example:
page 3, page size 20, total count 40. -/
theorem pagination_meta_correct_witness :
    (1 ≤ 3 ∧ 1 ≤ 20) ∧
    ((svcSearchMovies cexStore "q" 3 20).movies
        = ((ftMatches cexStore "q").drop ((3 - 1) * 20)).take 20 ∧
     40 ≤ 20 * (resolverPageMeta 40 3 20).totalPages ∧
     20 * (resolverPageMeta 40 3 20).totalPages < 40 + 20 ∧
     (40 = 0 → (resolverPageMeta 40 3 20).totalPages = 0) ∧
     ((resolverPageMeta 40 3 20).hasNext = true ↔
       3 < (resolverPageMeta 40 3 20).totalPages) ∧
     ((resolverPageMeta 40 3 20).hasPrevious = true ↔ 1 < 3)) :=
  ⟨⟨by norm_num, by norm_num⟩,
    pagination_meta_correct cexStore "q" 40 3 20 (by norm_num) (by norm_num)⟩

/-- Claim C4, counterexample: the 16-character genre value consisting of
the digit 1 followed by fifteen exclamation marks is excluded by
`_is_valid_genre` (the fourth rule: starts with the character 1 and is
longer than 15) but is not covered by any of the claim's three exclusion
rules. -/
theorem genre_filter_extra_rule_cex :
    isValidGenre "1!!!!!!!!!!!!!!!" = false ∧
    claimExcludesGenre "1!!!!!!!!!!!!!!!" = false :=
  ⟨by decide, by decide⟩

/-- Claim C4, amended: a genre value is excluded exactly when it is empty
or "Unknown", or parses as an integer in [1900, 2030], or is longer than
15 characters and more than 80% alphanumeric, or — the rule the claim
omits — is longer than 15 characters and starts with the character 1;
the spec's own examples behave as stated. -/
theorem genre_filter_characterization :
    (∀ g : String, isValidGenre g = false ↔
      (claimExcludesGenre g || (startsWithOne g && decide (15 < g.length))) = true) ∧
    isValidGenre "Action" = true ∧ isValidGenre "2014" = false ∧
    isValidGenre "1a2B3c4D5e6F7g8H9i" = false := by
  refine ⟨?_, by decide, by decide, by decide⟩
  intro g
  unfold isValidGenre claimExcludesGenre
  cases h1 : (g == "" || g == "Unknown") <;>
    cases h2 : yearLikeGenre g <;>
      cases h3 : folderLikeGenre g <;>
        cases h4 : startsWithOne g && decide (15 < g.length) <;>
          simp [h1, h2, h3, h4]

/-- Claim C6: for every free-text input containing a double or single
quote, the free-text clause emitted by the query builder contains no
unescaped occurrence of those characters — each one is preceded by a
backslash — and with no other filters set the emitted query is exactly
that clause. -/
theorem free_text_quotes_escaped (s : List Char)
    (h : quoteChar ∈ s ∨ apostChar ∈ s) :
    quotesEscaped (textSearchClause s) = true ∧
    buildSearchQuery s none none none none none none none none none none none
      = textSearchClause s := by
  constructor
  · unfold quotesEscaped textSearchClause
    simp only [quotesEscapedFrom_append, Bool.and_eq_true]
    repeat' apply And.intro
    all_goals
      first
        | exact quotesEscapedFrom_escape s _
        | exact quotesEscapedFrom_noQuote _ (by decide) _
  · have hs : s.isEmpty = false := by
      cases s with
      | nil => rcases h with h | h <;> cases h
      | cons c rest => rfl
    unfold buildSearchQuery
    simp [hs, optStrClause, List.intercalate, List.intersperse]

/-- Witness for `free_text_quotes_escaped` on an input containing a
double quote. -/
theorem free_text_quotes_escaped_witness :
    (quoteChar ∈ quotedInput ∨ apostChar ∈ quotedInput) ∧
    (quotesEscaped (textSearchClause quotedInput) = true ∧
     buildSearchQuery quotedInput none none none none none none none none none none none
       = textSearchClause quotedInput) :=
  ⟨Or.inl (by decide), free_text_quotes_escaped quotedInput (Or.inl (by decide))⟩

/-- Claim C7, counterexample: with only an upper year bound 2000 given,
`build_search_query` emits `@year:[0 2000]` — the absent minimum is
replaced by `0`, not by the domain floor `1900` that the claim requires
(`rangeClauseWith` renders the claim's expected clause). -/
theorem year_range_default_cex :
    buildSearchQuery [] none none none none none (some 2000) none none none none none
      = "* @year:[0 2000]".toList ∧
    rangeClauseWith "@year:[" "1900" "2030" none (some "2000".toList)
      = ["@year:[1900 2000]".toList] ∧
    ("* @year:[0 2000]".toList : List Char) ≠ "* @year:[1900 2000]".toList :=
  ⟨by decide, by decide, by decide⟩

/-- Claim C7, amended: `SearchService.build_search_query` emits a year
clause iff a bound is given, with absent minimum `0` and absent maximum
`+inf`, a rating clause with defaults `0` and `10`, and has no
popularity filter at all; the advanced search (GraphQL and REST) emits a
range clause whenever the range object is present, treating falsy
bounds (absent or 0) as absent and filling them with 1900/2030, 0/10 and
0/1000000. -/
theorem range_filter_characterization :
    (∀ (yf yt : Option Int) (rmin rmax : Option Rat),
      buildSearchQuery [] none none none none yf yt rmin rmax none none none
        = List.intercalate [' ']
            ([['*']]
              ++ rangeClauseWith "@year:[" "0" "+inf"
                  (yf.map (fun y => (toString y).toList))
                  (yt.map (fun y => (toString y).toList))
              ++ rangeClauseWith "@imdb_rating:[" "0" "10"
                  (rmin.map (fun r => (pyFloatStr r).toList))
                  (rmax.map (fun r => (pyFloatStr r).toList)))) ∧
    (∀ (yr : Option YearRange) (rr : Option RatingRange)
        (pr : Option PopularityRange),
      advRangeFilters yr rr pr
        = rangeClauseObj "@year:[" "1900" "2030"
            (yr.map (fun r => (truthyIntBound r.minYear, truthyIntBound r.maxYear)))
          ++ rangeClauseObj "@imdb_rating:[" "0" "10"
            (rr.map (fun r => (truthyRatBound r.minRating, truthyRatBound r.maxRating)))
          ++ rangeClauseObj "@popu:[" "0" "1000000"
            (pr.map (fun r =>
              (truthyIntBound r.minPopularity, truthyIntBound r.maxPopularity)))) := by
  constructor
  · intro yf yt rmin rmax
    cases yf <;> cases yt <;> cases rmin <;> cases rmax <;> rfl
  · intro yr rr pr
    obtain _ | ⟨mn, mx⟩ := yr <;> obtain _ | ⟨rmn, rmx⟩ := rr <;>
      obtain _ | ⟨pmn, pmx⟩ := pr <;>
        simp [advRangeFilters, rangeClauseObj, truthyIntBound_getD, truthyRatBound_getD]

/-- Claim C8, counterexample: on six records, all positively rated with
non-empty titles, the service's top-rated list has six entries — it is
never truncated to five. -/
theorem svc_top_rated_uncapped_cex :
    Option.map List.length (svcTopRatedMovies sixDocs) = some 6 ∧ 5 < 6 := by
  refine ⟨?_, by decide⟩
  have h : svcDashBase sixDocs = some sixBase := by decide
  simp only [svcTopRatedMovies, h, Option.map_some', List.length_mergeSort,
    Option.some.injEq]
  decide

/-- Claim C8, amended: the service top-rated list is the stable
descending-by-rating sort of all records with truthy rating and truthy
title — uncapped, sorted, with ties kept in input order; the GraphQL
resolver list is the first five of a stable descending sort of all
records, without the positive-rating or non-empty-title filter. -/
theorem top_rated_characterization (docs : List StoreDoc) (base : List TopRec)
    (h : svcDashBase docs = some base) :
    svcTopRatedMovies docs = some (base.mergeSort ratingDescLe) ∧
    base.length = (docs.filter
        (fun d => fieldTruthy d "imdb_rating" && fieldTruthy d "title")).length ∧
    (base.mergeSort ratingDescLe).length = base.length ∧
    (base.mergeSort ratingDescLe).Pairwise (fun a b => b.rating ≤ a.rating) ∧
    (∀ r : Rat, (base.mergeSort ratingDescLe).filter (fun t => t.rating == r)
        = base.filter (fun t => t.rating == r)) ∧
    (resolverTopRated docs).length = min 5 docs.length ∧
    (resolverTopRated docs).Pairwise (fun a b => b.rating ≤ a.rating) := by
  refine ⟨by simp [svcTopRatedMovies, h], optionTraverse_length _ _ _ h, by simp,
    ?_, ?_, ?_, ?_⟩
  · have hs := List.sorted_mergeSort ratingDescLe_trans ratingDescLe_total base
    exact hs.imp (fun hab => by simpa [ratingDescLe, decide_eq_true_eq] using hab)
  · intro r
    have h2 : ratingDescLe = fun a b : TopRec => decide (b.rating ≤ a.rating) := rfl
    rw [h2]
    exact mergeSort_filter_key (fun t : TopRec => t.rating) base r
  · simp [resolverTopRated, List.length_take, List.length_mergeSort]
  · have hs := List.sorted_mergeSort resolverDocLe_trans resolverDocLe_total docs
    have ht : (List.take 5 (docs.mergeSort resolverDocLe)).Pairwise
        (fun a b => resolverDocLe a b = true) :=
      hs.sublist (List.take_sublist 5 _)
    unfold resolverTopRated
    rw [List.pairwise_map]
    exact ht.imp (fun hab => by simpa [resolverDocLe, decide_eq_true_eq] using hab)

/-- Witness for `top_rated_characterization` on the six-record store. -/
theorem top_rated_characterization_witness :
    svcDashBase sixDocs = some sixBase ∧
    (svcTopRatedMovies sixDocs = some (sixBase.mergeSort ratingDescLe) ∧
     sixBase.length = (sixDocs.filter
        (fun d => fieldTruthy d "imdb_rating" && fieldTruthy d "title")).length ∧
     (sixBase.mergeSort ratingDescLe).length = sixBase.length ∧
     (sixBase.mergeSort ratingDescLe).Pairwise (fun a b => b.rating ≤ a.rating) ∧
     (∀ r : Rat, (sixBase.mergeSort ratingDescLe).filter (fun t => t.rating == r)
        = sixBase.filter (fun t => t.rating == r)) ∧
     (resolverTopRated sixDocs).length = min 5 sixDocs.length ∧
     (resolverTopRated sixDocs).Pairwise (fun a b => b.rating ≤ a.rating)) :=
  ⟨by decide, top_rated_characterization sixDocs sixBase (by decide)⟩

end MovieLib
